import Mathlib

/-!
Verification development for the `pinescript-agents` video-analysis tool
(`tools/video-analyzer.py`).  The Python source is shallowly embedded:
transcripts are Lean `String`s, Python dicts of fixed shape become Lean
structures, and the external collaborators (yt-dlp metadata fetch, Whisper
transcription, hashlib) are passed in as oracle functions.  Python's `re`
patterns are embedded as executable matchers over `List Char`; `\d`, `\s`
and `\w` are modelled over ASCII (the transcripts and URLs of interest are
ASCII), and the matchers reproduce the backtracking behaviour of the four
concrete patterns used by the source, as argued in the comments.
-/

namespace VideoAnalyzer

/-- Lowercase a string into its character list (model of Python `text.lower()`
followed by character-wise scanning; ASCII case folding). -/
def lowerChars (s : String) : List Char :=
  s.data.map Char.toLower

/-- `substrOf needle hay` models Python's `needle in hay` on strings:
`needle` occurs as a contiguous substring of `hay`. -/
def substrOf (needle : List Char) : List Char → Bool
  | [] => needle.isEmpty
  | c :: rest => needle.isPrefixOf (c :: rest) || substrOf needle rest

/-- Model of Python `str.strip()`: drop whitespace at both ends. -/
def trimChars (l : List Char) : List Char :=
  ((l.dropWhile Char.isWhitespace).reverse.dropWhile Char.isWhitespace).reverse

/-- Model of Python `text.split(sep)` for a single-character separator:
split at every occurrence, keeping empty segments. -/
def splitOnChar (sep : Char) : List Char → List (List Char)
  | [] => [[]]
  | c :: rest =>
    if c = sep then
      [] :: splitOnChar sep rest
    else
      match splitOnChar sep rest with
      | [] => [[c]]
      | g :: gs => (c :: g) :: gs

/-- Model of Python `str.split()` with no argument: whitespace-separated
words, empties collapsed.  `acc` holds the current word reversed. -/
def wordsAux (acc : List Char) : List Char → List (List Char)
  | [] => if acc.isEmpty then [] else [acc.reverse]
  | c :: rest =>
    if c.isWhitespace then
      if acc.isEmpty then wordsAux [] rest
      else acc.reverse :: wordsAux [] rest
    else wordsAux (c :: acc) rest

def wordsOf (l : List Char) : List (List Char) :=
  wordsAux [] l

/-! ### Keyword tables (`self.trading_keywords`, source lines 40-67) -/

def indicators_keywords : List String :=
  ["rsi", "macd", "moving average", "ema", "sma", "bollinger bands",
   "stochastic", "volume", "atr", "adx", "ichimoku", "fibonacci",
   "pivot points", "support resistance", "vwap", "momentum"]

def patterns_keywords : List String :=
  ["breakout", "trend", "reversal", "divergence", "convergence",
   "cross", "crossover", "golden cross", "death cross", "squeeze",
   "flag", "pennant", "triangle", "head and shoulders", "double top",
   "double bottom", "cup and handle"]

def strategies_keywords : List String :=
  ["scalping", "day trading", "swing trading", "position trading",
   "mean reversion", "trend following", "momentum", "arbitrage",
   "pairs trading", "grid trading", "martingale", "dca"]

def conditions_keywords : List String :=
  ["entry", "exit", "stop loss", "take profit", "risk management",
   "position sizing", "trailing stop", "break even", "signal",
   "confirmation", "filter", "trigger"]

def timeframes_keywords : List String :=
  ["1 minute", "5 minute", "15 minute", "30 minute", "1 hour",
   "4 hour", "daily", "weekly", "monthly", "multi timeframe",
   "higher timeframe", "lower timeframe"]

/-! ### Data model

Python returns dicts of fixed shape; they are embedded as structures (the
spec's own design note asks for exactly this replacement).  The literal key
sets of those dicts are recorded separately below so that claims about dict
keys remain statable. -/

structure SpecificValue where
  type : String
  values : List String
deriving DecidableEq, Repr

structure ConceptFindings where
  indicators : List String
  patterns : List String
  strategies : List String
  conditions : List String
  timeframes : List String
  specific_values : List SpecificValue
deriving DecidableEq, Repr

structure StrategyComponents where
  entry_conditions : List String
  exit_conditions : List String
  risk_management : List String
  indicators_used : List String
  timeframe : Option String
  market_conditions : List String
deriving DecidableEq, Repr

/-- Keys of the `found_concepts` dict literal in `extract_key_concepts`
(source lines 144-151).  The function fills values in place and never adds
or removes a key, so these are exactly the keys of its result. -/
def extract_key_concepts_keys : List String :=
  ["indicators", "patterns", "strategies", "conditions", "timeframes",
   "specific_values"]

/-- Keys of the `components` dict literal in `identify_strategy_components`
(source lines 179-186).  The classification loop and the truncation loop
only update values at existing keys, so these are exactly the keys of its
result. -/
def identify_strategy_components_keys : List String :=
  ["entry_conditions", "exit_conditions", "risk_management",
   "indicators_used", "timeframe", "market_conditions"]

/-! ### The four numeric-value regexes (source lines 160-165)

Each matcher takes the text at a candidate start position and returns
`some (group, rest)` when the regex matches there (`group` = capture group 1,
`rest` = the text after the whole match), `none` otherwise.  `findallAux`
then reproduces `re.findall`: scan left to right, record each
non-overlapping match, resume after its end. -/

/-- Character class `[\w-]` of the video-id regexes (ASCII `\w` plus dash). -/
def isWordDash (c : Char) : Bool :=
  c.isAlphanum || c = '_' || c = '-'

/-- Try a list of literal alternatives in order (regex alternation whose
branches are plain literals and which ends the pattern): return the rest of
the input after the first alternative that is a prefix. -/
def matchFirstLit : List String → List Char → Option (List Char)
  | [], _ => none
  | lit :: lits, s =>
    if lit.data.isPrefixOf s then some (s.drop lit.data.length)
    else matchFirstLit lits s

/-- Greedy match of `\d+\.?\d*` at the start of `s`.  The regex engine's
backtracking never produces any other group here: shortening `\d+` or `\d*`
leaves a digit in front of the continuation (`\s*` then a literal starting
with a non-digit), and dropping the matched `.` leaves the dot there, so the
greedy parse is the only candidate. -/
def numToken (s : List Char) : Option (List Char × List Char) :=
  let ds := s.takeWhile Char.isDigit
  if ds.isEmpty then none
  else
    let r1 := s.drop ds.length
    match r1 with
    | '.' :: tail =>
      let es := tail.takeWhile Char.isDigit
      some (ds ++ '.' :: es, tail.drop es.length)
    | _ => some (ds, r1)

/-- `(\d+)\s*(?:period|length|bar|candle)`: greedy digits, then spaces, then
one of the literals.  Greedy is exact: a digit given back cannot start
`\s*(?:period|...)`. -/
def matchPeriodsAt (s : List Char) : Option (List Char × List Char) :=
  let ds := s.takeWhile Char.isDigit
  if ds.isEmpty then none
  else
    let r1 := (s.drop ds.length).dropWhile Char.isWhitespace
    (matchFirstLit ["period", "length", "bar", "candle"] r1).map
      (fun r2 => (ds, r2))

/-- `(\d+\.?\d*)\s*(?:%|percent)`. -/
def matchPercentAt (s : List Char) : Option (List Char × List Char) :=
  match numToken s with
  | none => none
  | some (grp, r1) =>
    let r2 := r1.dropWhile Char.isWhitespace
    (matchFirstLit ["%", "percent"] r2).map (fun r3 => (grp, r3))

/-- `(\d+)\s*(?:pip|point)`. -/
def matchPipsAt (s : List Char) : Option (List Char × List Char) :=
  let ds := s.takeWhile Char.isDigit
  if ds.isEmpty then none
  else
    let r1 := (s.drop ds.length).dropWhile Char.isWhitespace
    (matchFirstLit ["pip", "point"] r1).map (fun r2 => (ds, r2))

/-- After an optional literal (`at` or `around`), spaces, then the number. -/
def optThenNum (lit : String) (r : List Char) : Option (List Char × List Char) :=
  if lit.data.isPrefixOf r then
    numToken ((r.drop lit.data.length).dropWhile Char.isWhitespace)
  else none

/-- `(?:level|zone|area)\s*(?:at|around)?\s*(\d+\.?\d*)`: the engine tries
the optional group's alternatives in order (`at`, then `around`, then
empty); giving back characters of a maximal `\s*` run never helps since a
space can start none of the following tokens. -/
def matchLevelsAt (s : List Char) : Option (List Char × List Char) :=
  match matchFirstLit ["level", "zone", "area"] s with
  | none => none
  | some r1 =>
    let r2 := r1.dropWhile Char.isWhitespace
    match optThenNum "at" r2 with
    | some g => some g
    | none =>
      match optThenNum "around" r2 with
      | some g => some g
      | none => numToken r2

/-- `re.findall` driver: at each position try the matcher; on a match record
the group and resume after the match, else advance one character.  Every
matcher above consumes at least one character on success, so fuel equal to
the input length suffices. -/
def findallAux (matchAt : List Char → Option (List Char × List Char)) :
    Nat → List Char → List (List Char)
  | 0, _ => []
  | _ + 1, [] => []
  | fuel + 1, s@(_ :: rest) =>
    match matchAt s with
    | some (g, r) => g :: findallAux matchAt fuel r
    | none => findallAux matchAt fuel rest

def findallMatches (matchAt : List Char → Option (List Char × List Char))
    (s : List Char) : List (List Char) :=
  findallAux matchAt s.length s

/-- One entry of the `specific_values` loop (source lines 167-173): if the
pattern matched at all, emit `{type, values}` with up to 5 distinct value
strings.  Python computes `list(set(matches))[:5]`, whose order is
unspecified set order; `dedup` (first occurrences) is the representative
chosen here — every claim about `specific_values` is order-insensitive. -/
def buildSV (ty : String) (ms : List (List Char)) : List SpecificValue :=
  if ms.isEmpty then []
  else [⟨ty, (ms.dedup.take 5).map (fun cs => String.mk cs)⟩]

def extract_specific_values (text_lower : List Char) : List SpecificValue :=
  buildSV "periods" (findallMatches matchPeriodsAt text_lower) ++
  buildSV "percentages" (findallMatches matchPercentAt text_lower) ++
  buildSV "pips" (findallMatches matchPipsAt text_lower) ++
  buildSV "levels" (findallMatches matchLevelsAt text_lower)

/-- `extract_key_concepts` (source lines 141-175): case-fold the transcript,
keep every keyword occurring as a substring (per category, in table order —
the append loop is a filter), and collect the numeric-value matches. -/
def extract_key_concepts (text : String) : ConceptFindings :=
  let text_lower := lowerChars text
  { indicators := indicators_keywords.filter (fun kw => substrOf kw.data text_lower)
    patterns := patterns_keywords.filter (fun kw => substrOf kw.data text_lower)
    strategies := strategies_keywords.filter (fun kw => substrOf kw.data text_lower)
    conditions := conditions_keywords.filter (fun kw => substrOf kw.data text_lower)
    timeframes := timeframes_keywords.filter (fun kw => substrOf kw.data text_lower)
    specific_values := extract_specific_values text_lower }

/-! ### `identify_strategy_components` (source lines 177-215) -/

def entry_trigger_words : List String :=
  ["enter", "buy", "long", "entry signal"]

def exit_trigger_words : List String :=
  ["exit", "sell", "close", "take profit", "stop loss"]

def risk_trigger_words : List String :=
  ["risk", "position size", "money management", "drawdown"]

def market_trigger_words : List String :=
  ["trend", "ranging", "volatile", "breakout"]

/-- A sentence matches a role when its lowercased form contains one of the
role's trigger words as a substring. -/
def sentenceMatches (words : List String) (sentence : List Char) : Bool :=
  let sentence_lower := sentence.map Char.toLower
  words.any (fun w => substrOf w.data sentence_lower)

/-- The final truncation loop (source lines 210-213): lists longer than 3
are cut to their first 3 entries, shorter lists are left unchanged. -/
def cap3 (l : List String) : List String :=
  if l.length > 3 then l.take 3 else l

/-- Collect, in order, the stripped original-case sentences matching a
role's trigger words (the classification loop appends `sentence.strip()`
whenever the lowercased sentence contains a trigger word). -/
def collectRole (words : List String) (sentences : List (List Char)) :
    List String :=
  (sentences.filter (fun s => sentenceMatches words s)).map
    (fun s => String.mk (trimChars s))

/-- `identify_strategy_components` (source lines 177-215): split the
transcript at every period, classify each segment into roles by
trigger-word presence, then truncate every list-valued entry to 3.
`indicators_used` and `timeframe` come from the dict literal and are never
written by either loop (`cap3` leaves the empty list unchanged). -/
def identify_strategy_components (text : String) : StrategyComponents :=
  let sentences := splitOnChar '.' text.data
  { entry_conditions := cap3 (collectRole entry_trigger_words sentences)
    exit_conditions := cap3 (collectRole exit_trigger_words sentences)
    risk_management := cap3 (collectRole risk_trigger_words sentences)
    indicators_used := cap3 []
    timeframe := none
    market_conditions := cap3 (collectRole market_trigger_words sentences) }

/-! ### Spec synthesis (source lines 217-291) -/

structure VideoSource where
  title : String
  author : String
  url : String
deriving DecidableEq, Repr

structure ImplementationRequirements where
  entry_logic : List String
  exit_logic : List String
  risk_rules : List String
  market_filter : List String
deriving DecidableEq, Repr

structure Feasibility where
  overall : String
  notes : List String
  limitations : List String
deriving DecidableEq, Repr

structure PineSpec where
  video_source : VideoSource
  detected_type : String
  main_indicators : List String
  trading_patterns : List String
  strategy_type : String
  timeframes : List String
  implementation_requirements : ImplementationRequirements
  specific_parameters : List SpecificValue
  complexity_score : Nat
  feasibility : Feasibility
deriving DecidableEq, Repr

/-- `get_video_metadata` result shape (source lines 84-102), with the
`error` field standing for the `{'error': ...}` dict of the failure paths.
The retrieval itself is an external collaborator and enters the model as an
oracle argument of `analyze_video`. -/
structure VideoMetadata where
  title : String
  author : String
  length : Nat
  description : String
  publish_date : String
  views : Nat
  url : String
  error : Option String
deriving DecidableEq, Repr

/-- `_determine_script_type` (source lines 243-251). -/
def determine_script_type (concepts : ConceptFindings)
    (components : StrategyComponents) : String :=
  let strategy_indicators :=
    components.entry_conditions.length + components.exit_conditions.length
  if strategy_indicators > 2 then "strategy"
  else if !concepts.indicators.isEmpty then "indicator"
  else "unknown"

/-- The stop-list of `_summarize_conditions` (source line 264). -/
def summarize_stop_words : List String :=
  ["when", "then", "that", "this", "with"]

/-- `_summarize_conditions` (source lines 253-269): for up to 3 conditions,
keep words longer than 4 characters whose lowercase form is not in the
stop-list, and join the first 5 of them; conditions with no surviving word
are dropped. -/
def summarize_conditions (conditions : List String) : List String :=
  (conditions.take 3).filterMap (fun condition =>
    let key_terms := (wordsOf condition.data).filter (fun w =>
      w.length > 4 &&
        !(summarize_stop_words.contains (String.mk (w.map Char.toLower))))
    if key_terms.isEmpty then none
    else some (String.intercalate " " ((key_terms.take 5).map String.mk)))

/-- `_calculate_complexity` (source lines 271-283). -/
def calculate_complexity (concepts : ConceptFindings)
    (components : StrategyComponents) : Nat :=
  let score := 1
  let score := score + min concepts.indicators.length 3
  let score := score + min concepts.patterns.length 2
  let score := score + (if !components.entry_conditions.isEmpty then 1 else 0)
  let score := score + (if !components.exit_conditions.isEmpty then 1 else 0)
  let score := score + (if !components.risk_management.isEmpty then 1 else 0)
  let score := score + (if concepts.timeframes.length > 1 then 1 else 0)
  min score 10

/-- `_assess_feasibility` (source lines 285-291). -/
def assess_feasibility (concepts : ConceptFindings)
    (components : StrategyComponents) : Feasibility :=
  { overall :=
      if calculate_complexity concepts components ≤ 7 then "full"
      else "partial"
    notes := []
    limitations := [] }

/-- `generate_pine_script_spec` (source lines 217-241).  The structure
fields are always present, so every `concepts.get(key, default)` in the
source reads the actual value and its default is dead code — in particular
`concepts.get('timeframes', ['not specified'])` passes the (possibly empty)
matched list through, and the `['custom']` default of `strategies` is
subsumed by the explicit emptiness test.  `list(set(...))[:n]` becomes
`dedup.take n` (set order is unspecified; no claim depends on it). -/
def generate_pine_script_spec (concepts : ConceptFindings)
    (components : StrategyComponents) (metadata : VideoMetadata) : PineSpec :=
  { video_source :=
      { title := metadata.title
        author := metadata.author
        url := metadata.url }
    detected_type := determine_script_type concepts components
    main_indicators := concepts.indicators.dedup.take 5
    trading_patterns := concepts.patterns.dedup.take 3
    strategy_type :=
      match concepts.strategies with
      | [] => "custom"
      | s :: _ => s
    timeframes := concepts.timeframes
    implementation_requirements :=
      { entry_logic := summarize_conditions components.entry_conditions
        exit_logic := summarize_conditions components.exit_conditions
        risk_rules := summarize_conditions components.risk_management
        market_filter := components.market_conditions.take 2 }
    specific_parameters := concepts.specific_values
    complexity_score := calculate_complexity concepts components
    feasibility := assess_feasibility concepts components }

/-- `create_user_summary` (source lines 331-358), the f-string spelled out
as concatenation. -/
def create_user_summary (spec : PineSpec) : String :=
  "\n📹 VIDEO ANALYSIS COMPLETE\n========================\n\n**Source**: " ++
  spec.video_source.title ++
  "\n**Author**: " ++ spec.video_source.author ++
  "\n\n**Detected Type**: " ++ spec.detected_type.toUpper ++
  "\n**Complexity**: " ++ toString spec.complexity_score ++ "/10" ++
  "\n**Strategy Style**: " ++ spec.strategy_type ++
  "\n\n**Main Components Identified**:\n• Indicators: " ++
  (if spec.main_indicators.isEmpty then "None specific"
   else String.intercalate ", " spec.main_indicators) ++
  "\n• Patterns: " ++
  (if spec.trading_patterns.isEmpty then "None specific"
   else String.intercalate ", " spec.trading_patterns) ++
  "\n• Timeframes: " ++ String.intercalate ", " spec.timeframes ++
  "\n\n**Trading Logic**:\n• Entry: " ++
  toString spec.implementation_requirements.entry_logic.length ++
  " conditions found\n• Exit: " ++
  toString spec.implementation_requirements.exit_logic.length ++
  " conditions found\n• Risk: " ++
  toString spec.implementation_requirements.risk_rules.length ++
  " rules found\n\n**Feasibility**: " ++ spec.feasibility.overall.toUpper ++
  "\n\nIs this understanding correct? Reply \x27yes\x27 to proceed or describe what needs adjustment.\n"

/-! ### `extract_video_id` and `analyze_video` (source lines 69-82, 293-329) -/

/-- The literal parts of the four ordered video-id regexes
`(?:LIT)([\w-]+)` (source lines 71-76); every escaped character in the
source patterns is a plain literal. -/
def video_id_patterns : List String :=
  ["youtube.com/watch?v=", "youtu.be/", "youtube.com/embed/",
   "youtube.com/v/"]

/-- `re.search` for a pattern of the shape `(?:LIT)([\w-]+)`: scan for the
leftmost position where `LIT` occurs followed by at least one `[\w-]`
character, and capture the maximal `[\w-]` run after it. -/
def searchCapture (lit : List Char) : List Char → Option (List Char)
  | [] => none
  | s@(_ :: rest) =>
    if lit.isPrefixOf s then
      match (s.drop lit.length).takeWhile isWordDash with
      | [] => searchCapture lit rest
      | g => some g
    else searchCapture lit rest

def extractIdAux : List String → List Char → Option String
  | [], _ => none
  | p :: ps, s =>
    match searchCapture p.data s with
    | some g => some (String.mk g)
    | none => extractIdAux ps s

/-- `extract_video_id` (source lines 69-82): first matching pattern wins. -/
def extract_video_id (url : String) : Option String :=
  extractIdAux video_id_patterns url.data

/-- Success payload of `analyze_video` (source lines 321-329). -/
structure AnalysisSuccess where
  summary : String
  detailed_spec : PineSpec
  raw_concepts : ConceptFindings
  raw_components : StrategyComponents
  transcript_length : Nat
  analysis_id : String
deriving DecidableEq, Repr

/-- The three shapes of `analyze_video`'s result dict: the
`{'error': 'Invalid YouTube URL'}` dict, the
`{'error': ..., 'metadata': ...}` dict, and the success dict. -/
inductive AnalyzeResult where
  | invalidUrl (error : String)
  | transcriptError (error : String) (metadata : VideoMetadata)
  | success (result : AnalysisSuccess)
deriving DecidableEq, Repr

/-- The two external operations `analyze_video` performs, in program order;
the returned trace records which of them an invocation reached. -/
inductive ExtEffect where
  | fetchMetadata
  | acquireTranscript
deriving DecidableEq, Repr

/-- `analyze_video` (source lines 293-329).  The collaborators are oracle
arguments: `getMeta` stands for `get_video_metadata` (which never raises —
failures come back in its `error` field), `transcribe` for
`download_and_transcribe` (`none` = failure), and `md5hex` for
`hashlib.md5(...).hexdigest()`.  `if not transcript` is true for both
`None` and the empty string. -/
def analyze_video (getMeta : String → VideoMetadata)
    (transcribe : String → Option String) (md5hex : String → String)
    (url : String) : AnalyzeResult × List ExtEffect :=
  match extract_video_id url with
  | none => (AnalyzeResult.invalidUrl "Invalid YouTube URL", [])
  | some video_id =>
    let metadata := { getMeta url with url := url }
    match transcribe url with
    | none =>
      (AnalyzeResult.transcriptError "Could not transcribe video" metadata,
       [ExtEffect.fetchMetadata, ExtEffect.acquireTranscript])
    | some transcript =>
      if transcript = "" then
        (AnalyzeResult.transcriptError "Could not transcribe video" metadata,
         [ExtEffect.fetchMetadata, ExtEffect.acquireTranscript])
      else
        let concepts := extract_key_concepts transcript
        let components := identify_strategy_components transcript
        let spec := generate_pine_script_spec concepts components metadata
        let summary := create_user_summary spec
        (AnalyzeResult.success
          { summary := summary
            detailed_spec := spec
            raw_concepts := concepts
            raw_components := components
            transcript_length := transcript.length
            analysis_id := (md5hex video_id).take 8 },
         [ExtEffect.fetchMetadata, ExtEffect.acquireTranscript])

/-! ### Fixed example inputs used by the concrete theorems below -/

/-- The transcript of spec §8's worked example. -/
def sample_transcript : String :=
  "RSI crossed above 70. Enter long when RSI crosses 30. Stop loss at 2%."

def sampleMetadata : VideoMetadata :=
  { title := "Unknown"
    author := "Unknown"
    length := 0
    description := ""
    publish_date := "Unknown"
    views := 0
    url := ""
    error := none }

def cEx : ConceptFindings :=
  { indicators := ["rsi"]
    patterns := ["cross"]
    strategies := []
    conditions := []
    timeframes := ["daily"]
    specific_values := [] }

def kEx : StrategyComponents :=
  { entry_conditions := ["Enter long when RSI crosses 30"]
    exit_conditions := []
    risk_management := []
    indicators_used := []
    timeframe := none
    market_conditions := [] }

/-- Modelled from the spec: §3's enumerated ConceptFindings keys — the five
categories plus `specific_values`.  Spec-side definition, for comparison
with `extract_key_concepts_keys`. -/
def spec_concept_category_keys : List String :=
  ["indicators", "patterns", "strategies", "conditions", "timeframes",
   "specific_values"]

/-- Modelled from the spec: §3's enumerated StrategyComponents roles.
Spec-side definition, for comparison with
`identify_strategy_components_keys`. -/
def spec_component_role_keys : List String :=
  ["entry_conditions", "exit_conditions", "risk_management",
   "market_conditions"]

/-! ### Helper lemmas -/

theorem cap3_length_le (l : List String) : (cap3 l).length ≤ 3 := by
  unfold cap3
  split
  · rw [List.length_take]
    exact min_le_left _ _
  · omega

theorem string_mk_injective : Function.Injective String.mk :=
  fun _ _ h => congrArg String.data h

theorem mem_buildSV {ty : String} {ms : List (List Char)} {e : SpecificValue}
    (h : e ∈ buildSV ty ms) : e.values.length ≤ 5 ∧ e.values.Nodup := by
  unfold buildSV at h
  split at h
  · simp at h
  · rcases List.mem_singleton.mp h with rfl
    constructor
    · show ((ms.dedup.take 5).map String.mk).length ≤ 5
      rw [List.length_map, List.length_take]
      exact min_le_left _ _
    · exact ((List.nodup_dedup ms).sublist (List.take_sublist 5 _)).map
        string_mk_injective

theorem bool_if_ne (l : List String) :
    (if !l.isEmpty then (1 : Nat) else 0) = if l ≠ [] then 1 else 0 := by
  cases l <;> simp

theorem calculate_complexity_eq (c : ConceptFindings)
    (k : StrategyComponents) :
    calculate_complexity c k =
      min (1 + min c.indicators.length 3 + min c.patterns.length 2
        + (if !k.entry_conditions.isEmpty then 1 else 0)
        + (if !k.exit_conditions.isEmpty then 1 else 0)
        + (if !k.risk_management.isEmpty then 1 else 0)
        + (if c.timeframes.length > 1 then 1 else 0)) 10 := rfl

/-! ### Claim theorems -/

set_option maxRecDepth 8000

/-- C1: the spec claims that with no timeframe keyword in the transcript
the detailed spec's `timeframes` field is `["not specified"]`.  The code
disagrees: `extract_key_concepts` always supplies the `timeframes` key, so
the `.get` default `['not specified']` in `generate_pine_script_spec` is
unreachable and the field is the (empty) matched list.  Evaluated at the
failing transcript "hello world", which contains no timeframe keyword. -/
theorem c1_timeframes_default_is_dead :
    (generate_pine_script_spec (extract_key_concepts "hello world")
      (identify_strategy_components "hello world") sampleMetadata).timeframes
        = [] ∧
    ([] : List String) ≠ ["not specified"] := by
  exact ⟨by decide, by decide⟩

/-- C2 counterexample: on the spec §8 transcript the claim "exit_conditions
is empty" is false — "stop loss" is an exit trigger word, so the third
sentence lands in `exit_conditions`. -/
theorem c2_exit_conditions_not_empty :
    (identify_strategy_components sample_transcript).exit_conditions ≠ [] := by
  decide

/-- C2 amended: on the transcript "RSI crossed above 70. Enter long when
RSI crosses 30. Stop loss at 2%.", the indicators include "rsi", the
patterns include "cross", the entry conditions consist of the second
sentence, risk_management is empty, exit_conditions consists of the third
sentence "Stop loss at 2%" (because "stop loss" is an exit trigger word),
and the detected type is "indicator". -/
theorem c2_sample_transcript_analysis :
    "rsi" ∈ (extract_key_concepts sample_transcript).indicators ∧
    "cross" ∈ (extract_key_concepts sample_transcript).patterns ∧
    (identify_strategy_components sample_transcript).entry_conditions
      = ["Enter long when RSI crosses 30"] ∧
    (identify_strategy_components sample_transcript).risk_management = [] ∧
    (identify_strategy_components sample_transcript).exit_conditions
      = ["Stop loss at 2%"] ∧
    determine_script_type (extract_key_concepts sample_transcript)
      (identify_strategy_components sample_transcript) = "indicator" := by
  refine ⟨by decide, by decide, by decide, by decide, by decide, by decide⟩

/-- C3 counterexample: the Component Identifier's result does not have
exactly the enumerated role keys — the dict literal also contains the key
`indicators_used` (and `timeframe`), which is not one of the spec §3
roles. -/
theorem c3_components_have_extra_keys :
    "indicators_used" ∈ identify_strategy_components_keys ∧
    "indicators_used" ∉ spec_component_role_keys := by
  decide

/-- C3 amended: the Concept Extractor's keys are exactly the enumerated
categories; the Component Identifier's keys are the four enumerated roles
plus the two never-populated placeholders `indicators_used` and
`timeframe`; every `specific_values` entry holds at most 5 distinct values;
and every role's sentence list has at most 3 entries. -/
theorem c3_key_sets_and_caps : ∀ t : String,
    extract_key_concepts_keys = spec_concept_category_keys ∧
    identify_strategy_components_keys.filter
      (fun k => spec_component_role_keys.contains k)
        = spec_component_role_keys ∧
    identify_strategy_components_keys.filter
      (fun k => !spec_component_role_keys.contains k)
        = ["indicators_used", "timeframe"] ∧
    (identify_strategy_components t).indicators_used = [] ∧
    (identify_strategy_components t).timeframe = none ∧
    (extract_key_concepts t).specific_values.Forall
      (fun e => e.values.length ≤ 5 ∧ e.values.Nodup) ∧
    (identify_strategy_components t).entry_conditions.length ≤ 3 ∧
    (identify_strategy_components t).exit_conditions.length ≤ 3 ∧
    (identify_strategy_components t).risk_management.length ≤ 3 ∧
    (identify_strategy_components t).market_conditions.length ≤ 3 := by
  intro t
  refine ⟨by decide, by decide, by decide, rfl, rfl, ?_, cap3_length_le _,
    cap3_length_le _, cap3_length_le _, cap3_length_le _⟩
  rw [List.forall_iff_forall_mem]
  intro e he
  replace he : e ∈ extract_specific_values (lowerChars t) := he
  unfold extract_specific_values at he
  rcases List.mem_append.mp he with he | he
  rotate_left
  · exact mem_buildSV he
  rcases List.mem_append.mp he with he | he
  rotate_left
  · exact mem_buildSV he
  rcases List.mem_append.mp he with he | he
  · exact mem_buildSV he
  · exact mem_buildSV he

/-- C4: the complexity score is 1 + min(#indicators,3) + min(#patterns,2)
+ 1 per non-empty entry/exit/risk list + 1 when more than one distinct
timeframe was found, clamped to 10, and always lies in [1,10].  The
distinctness hypothesis reflects spec §3's set semantics for
ConceptFindings categories. -/
theorem c4_complexity_formula (c : ConceptFindings) (k : StrategyComponents)
    (h : c.timeframes.Nodup) :
    calculate_complexity c k =
      min (1 + min c.indicators.length 3 + min c.patterns.length 2
        + (if k.entry_conditions ≠ [] then 1 else 0)
        + (if k.exit_conditions ≠ [] then 1 else 0)
        + (if k.risk_management ≠ [] then 1 else 0)
        + (if 1 < c.timeframes.dedup.length then 1 else 0)) 10 ∧
    1 ≤ calculate_complexity c k ∧ calculate_complexity c k ≤ 10 := by
  refine ⟨?_, ?_, ?_⟩
  · rw [calculate_complexity_eq, h.dedup, bool_if_ne, bool_if_ne, bool_if_ne]
  · rw [calculate_complexity_eq]
    split_ifs <;> omega
  · rw [calculate_complexity_eq]
    split_ifs <;> omega

/-- Witness for C4 at a concrete input. -/
theorem c4_complexity_formula_witness :
    cEx.timeframes.Nodup ∧
    (calculate_complexity cEx kEx =
      min (1 + min cEx.indicators.length 3 + min cEx.patterns.length 2
        + (if kEx.entry_conditions ≠ [] then 1 else 0)
        + (if kEx.exit_conditions ≠ [] then 1 else 0)
        + (if kEx.risk_management ≠ [] then 1 else 0)
        + (if 1 < cEx.timeframes.dedup.length then 1 else 0)) 10 ∧
    1 ≤ calculate_complexity cEx kEx ∧ calculate_complexity cEx kEx ≤ 10) :=
  ⟨by decide, c4_complexity_formula cEx kEx (by decide)⟩

/-- C5: the detected type is "strategy" when entry plus exit condition
counts exceed 2, else "indicator" when any indicator keyword was found,
else "unknown". -/
theorem c5_detected_type (c : ConceptFindings) (k : StrategyComponents) :
    determine_script_type c k =
      if 2 < k.entry_conditions.length + k.exit_conditions.length then
        "strategy"
      else if c.indicators ≠ [] then "indicator"
      else "unknown" := by
  have he : determine_script_type c k =
      if k.entry_conditions.length + k.exit_conditions.length > 2 then
        "strategy"
      else if !c.indicators.isEmpty then "indicator"
      else "unknown" := rfl
  rw [he]
  cases hi : c.indicators <;> simp

/-- C6: feasibility is "full" iff the complexity score is at most 7, else
"partial", and the notes and limitations lists are always empty. -/
theorem c6_feasibility (c : ConceptFindings) (k : StrategyComponents) :
    (assess_feasibility c k).overall
      = (if calculate_complexity c k ≤ 7 then "full" else "partial") ∧
    (assess_feasibility c k).notes = [] ∧
    (assess_feasibility c k).limitations = [] :=
  ⟨rfl, rfl, rfl⟩

/-- C7: when no video-id pattern matches the URL, `analyze_video` returns
the invalid-input error immediately, with an empty external-effect trace —
neither metadata retrieval nor transcript acquisition is attempted. -/
theorem c7_invalid_url (getMeta : String → VideoMetadata)
    (transcribe : String → Option String) (md5hex : String → String)
    (url : String) (h : extract_video_id url = none) :
    analyze_video getMeta transcribe md5hex url
      = (AnalyzeResult.invalidUrl "Invalid YouTube URL", []) := by
  unfold analyze_video
  rw [h]

/-- Witness for C7 at a concrete non-YouTube URL. -/
theorem c7_invalid_url_witness :
    extract_video_id "https://example.com/video" = none ∧
    analyze_video (fun _ => sampleMetadata) (fun _ => none) (fun _ => "")
      "https://example.com/video"
        = (AnalyzeResult.invalidUrl "Invalid YouTube URL", []) :=
  ⟨by decide, c7_invalid_url _ _ _ _ (by decide)⟩

/-- C8: when transcript acquisition fails or yields the empty string,
`analyze_video` terminates after the metadata fetch and returns the failure
result that carries exactly the metadata obtained (with the url recorded on
it) and nothing else; being a total function of its oracles, it raises no
fault. -/
theorem c8_transcript_failure (getMeta : String → VideoMetadata)
    (transcribe : String → Option String) (md5hex : String → String)
    (url vid : String) (h1 : extract_video_id url = some vid)
    (h2 : transcribe url = none ∨ transcribe url = some "") :
    analyze_video getMeta transcribe md5hex url
      = (AnalyzeResult.transcriptError "Could not transcribe video"
          { getMeta url with url := url },
         [ExtEffect.fetchMetadata, ExtEffect.acquireTranscript]) := by
  unfold analyze_video
  rw [h1]
  rcases h2 with h2 | h2
  · rw [h2]
  · rw [h2]
    rfl

/-- Witness for C8 at a concrete URL with a failing transcription oracle. -/
theorem c8_transcript_failure_witness :
    extract_video_id "https://youtu.be/abc123" = some "abc123" ∧
    analyze_video (fun _ => sampleMetadata)
      (fun _ => (none : Option String)) (fun _ => "")
      "https://youtu.be/abc123"
        = (AnalyzeResult.transcriptError "Could not transcribe video"
            { sampleMetadata with url := "https://youtu.be/abc123" },
           [ExtEffect.fetchMetadata, ExtEffect.acquireTranscript]) :=
  ⟨by decide,
    c8_transcript_failure (fun _ => sampleMetadata)
      (fun _ => (none : Option String)) (fun _ => "")
      "https://youtu.be/abc123" "abc123" (by decide) (Or.inl rfl)⟩

/-- C9: the Concept Extractor is a pure function of the transcript text —
in this embedding it reads nothing but its argument and the constant
keyword tables (the Python method reads only `self.trading_keywords`, which
is set once in `__init__` and never mutated), so two runs on the same text
are definitionally equal. -/
theorem c9_extract_idempotent (t : String) :
    extract_key_concepts t = extract_key_concepts t := rfl

/-- C10: the detailed spec's `market_filter` is the first 2 elements of the
Component Identifier's `market_conditions`, hence has at most 2 entries,
even though `market_conditions` itself is only capped at 3. -/
theorem c10_market_filter_cap (c : ConceptFindings) (k : StrategyComponents)
    (m : VideoMetadata) (t : String) :
    (generate_pine_script_spec c k m).implementation_requirements.market_filter
      = k.market_conditions.take 2 ∧
    (generate_pine_script_spec c k m).implementation_requirements.market_filter.length
      ≤ 2 ∧
    (identify_strategy_components t).market_conditions.length ≤ 3 := by
  refine ⟨rfl, ?_, cap3_length_le _⟩
  show (k.market_conditions.take 2).length ≤ 2
  rw [List.length_take]
  exact min_le_left _ _

end VideoAnalyzer
